import Mathlib

/-!
Verification of the genbot serverless handlers: a set of AWS Lambda functions
that generate an image from a text prompt (three Generator variants: inline
base64 return, presigned-URL return, retrieval-endpoint-URL return) and
retrieve a stored image (Retriever, `retrieve.js`).

The JavaScript source is shallowly embedded: asynchronous remote calls
(Bedrock model invocation, S3 put/get, URL signing) are passed in as explicit
stub values and every call a handler issues is recorded in an explicit trace,
so that "zero calls" claims are statements about the trace. Exceptions are
`Except` values; an exception escaping a handler (rejecting the Lambda
invocation) is an `Except.error` result. Bytes are natural numbers < 256.
-/

namespace Genbot

/-- Bucket name constant, shared by all handlers (source: `BUCKET_NAME`). -/
def BUCKET_NAME : String := "case-consulting-mgmt-genbot-images"

/-- The static fallback GIF URL used by both the Generator fallback message
and the Retriever redirect. -/
def fallbackGifUrl : String := "https://media.giphy.com/media/l41JNsXAvFvoHvWJW/giphy.gif"

/-- The Generator fallback body (source: the string literal in every
Generator `catch` branch). -/
def fallbackBody : String :=
  "Something went wrong :( https://media.giphy.com/media/l41JNsXAvFvoHvWJW/giphy.gif"

/-! ## Base64 codec

Embedding of `toBase64` / `fromBase64` from `@smithy/util-base64` (standard
RFC 4648 base64 with padding), used by `retrieve.js` to encode the fetched
object bytes and by the Generators to decode the model's base64 image. -/

/-- The base64 alphabet. -/
def base64Chars : List Char :=
  "ABCDEFGHIJKLMNOPQRSTUVWXYZabcdefghijklmnopqrstuvwxyz0123456789+/".toList

/-- The base64 character for a 6-bit value. -/
def base64Char (n : Nat) : Char := base64Chars.getD n 'A'

/-- The 6-bit value of a base64 character, `none` if it is not in the
alphabet. -/
def base64Index (c : Char) : Option Nat := base64Chars.findIdx? (· = c)

/-- RFC 4648 base64 encoding of a byte list, three bytes to four chars,
padded with `=`. -/
def base64EncodeList : List Nat → List Char
  | [] => []
  | [a] => [base64Char (a / 4), base64Char (a % 4 * 16), '=', '=']
  | [a, b] => [base64Char (a / 4), base64Char (a % 4 * 16 + b / 16),
      base64Char (b % 16 * 4), '=']
  | a :: b :: c :: rest =>
      [base64Char (a / 4), base64Char (a % 4 * 16 + b / 16),
       base64Char (b % 16 * 4 + c / 64), base64Char (c % 64)]
      ++ base64EncodeList rest

/-- Embedding of `toBase64` (`@smithy/util-base64`). -/
def toBase64 (bytes : List Nat) : String := String.mk (base64EncodeList bytes)

/-- RFC 4648 base64 decoding of a char list in groups of four, honouring
`=` padding; `none` on malformed input. -/
def base64DecodeList : List Char → Option (List Nat)
  | c1 :: c2 :: c3 :: c4 :: rest =>
    if c3 = '=' then
      if c4 = '=' ∧ rest = [] then
        match base64Index c1, base64Index c2 with
        | some n1, some n2 => some [n1 * 4 + n2 / 16]
        | _, _ => none
      else none
    else if c4 = '=' then
      if rest = [] then
        match base64Index c1, base64Index c2, base64Index c3 with
        | some n1, some n2, some n3 =>
            some [n1 * 4 + n2 / 16, n2 % 16 * 16 + n3 / 4]
        | _, _, _ => none
      else none
    else
      match base64Index c1, base64Index c2, base64Index c3, base64Index c4,
          base64DecodeList rest with
      | some n1, some n2, some n3, some n4, some tail =>
          some ([n1 * 4 + n2 / 16, n2 % 16 * 16 + n3 / 4, n3 % 4 * 64 + n4]
            ++ tail)
      | _, _, _, _, _ => none
  | [] => some []
  | _ => none

/-- Embedding of `fromBase64` (`@smithy/util-base64`); throwing on malformed
input is modelled as `none`. -/
def fromBase64 (s : String) : Option (List Nat) := base64DecodeList s.toList

theorem base64Index_char_fin : ∀ n : Fin 64, base64Index (base64Char n.val) = some n.val := by
  decide

theorem base64Char_ne_pad_fin : ∀ n : Fin 64, base64Char n.val ≠ '=' := by
  decide

theorem base64Index_char (n : Nat) (h : n < 64) :
    base64Index (base64Char n) = some n :=
  base64Index_char_fin ⟨n, h⟩

theorem base64Char_ne_pad (n : Nat) (h : n < 64) : base64Char n ≠ '=' :=
  base64Char_ne_pad_fin ⟨n, h⟩

/-- Base64 round trip on byte lists: decoding an encoded byte list gives the
bytes back. -/
theorem base64DecodeList_encodeList :
    ∀ B : List Nat, (∀ b ∈ B, b < 256) →
      base64DecodeList (base64EncodeList B) = some B
  | [], _ => rfl
  | [a], h => by
      have ha : a < 256 := h a (by simp)
      have h1 : base64Index (base64Char (a / 4)) = some (a / 4) :=
        base64Index_char _ (by omega)
      have h2 : base64Index (base64Char (a % 4 * 16)) = some (a % 4 * 16) :=
        base64Index_char _ (by omega)
      simp [base64EncodeList, base64DecodeList, h1, h2]
      omega
  | [a, b], h => by
      have ha : a < 256 := h a (by simp)
      have hb : b < 256 := h b (by simp)
      have hne : base64Char (b % 16 * 4) ≠ '=' :=
        base64Char_ne_pad _ (by omega)
      have h1 : base64Index (base64Char (a / 4)) = some (a / 4) :=
        base64Index_char _ (by omega)
      have h2 : base64Index (base64Char (a % 4 * 16 + b / 16))
          = some (a % 4 * 16 + b / 16) := base64Index_char _ (by omega)
      have h3 : base64Index (base64Char (b % 16 * 4)) = some (b % 16 * 4) :=
        base64Index_char _ (by omega)
      simp [base64EncodeList, base64DecodeList, hne, h1, h2, h3]
      omega
  | a :: b :: c :: rest, h => by
      have ha : a < 256 := h a (by simp)
      have hb : b < 256 := h b (by simp)
      have hc : c < 256 := h c (by simp)
      have ih := base64DecodeList_encodeList rest
        (fun x hx => h x (by simp [hx]))
      have hne3 : base64Char (b % 16 * 4 + c / 64) ≠ '=' :=
        base64Char_ne_pad _ (by omega)
      have hne4 : base64Char (c % 64) ≠ '=' :=
        base64Char_ne_pad _ (by omega)
      have h1 : base64Index (base64Char (a / 4)) = some (a / 4) :=
        base64Index_char _ (by omega)
      have h2 : base64Index (base64Char (a % 4 * 16 + b / 16))
          = some (a % 4 * 16 + b / 16) := base64Index_char _ (by omega)
      have h3 : base64Index (base64Char (b % 16 * 4 + c / 64))
          = some (b % 16 * 4 + c / 64) := base64Index_char _ (by omega)
      have h4 : base64Index (base64Char (c % 64)) = some (c % 64) :=
        base64Index_char _ (by omega)
      simp [base64EncodeList, base64DecodeList, hne3, hne4, h1, h2, h3, h4, ih]
      omega

/-- Round trip stated on the string-level codec pair. -/
theorem fromBase64_toBase64 (B : List Nat) (h : ∀ b ∈ B, b < 256) :
    fromBase64 (toBase64 B) = some B := by
  unfold fromBase64 toBase64
  have : (String.mk (base64EncodeList B)).toList = base64EncodeList B := rfl
  rw [this, base64DecodeList_encodeList B h]

/-! ## Retriever (`retrieve.js`)

The S3 `GetObjectCommand` outcome is a stub value: the object's bytes, a
`NoSuchKey` exception, or any other storage-layer exception. -/

/-- Outcome of the S3 get for a given key (stub of
`client.send(getCommand)` followed by `transformToByteArray`). -/
inductive StorageGetResult where
  | found (bytes : List Nat)
  | noSuchKey
  | otherError (name msg : String)
deriving DecidableEq, Repr

/-- Embedding of `getImage` (`retrieve.js`): fetch the object and return it
base64-encoded; both failure branches log and rethrow, so both are
`Except.error` (the logged text distinguishes them, the thrown value is the
original error). -/
def getImage (store : String → StorageGetResult) (imageFileName : String) :
    Except String String :=
  match store imageFileName with
  | .found bytes => .ok (toBase64 bytes)
  | .noSuchKey => .error "NoSuchKey"
  | .otherError n m => .error (n ++ ": " ++ m)

/-- A Lambda Function URL response as built by `retrieve.js`: only the
fields that handler ever sets. An absent `isBase64Encoded` field is
modelled as `false`. -/
structure RetrieveResponse where
  statusCode : Nat
  contentType : Option String
  location : Option String
  body : Option String
  isBase64Encoded : Bool
deriving DecidableEq, Repr

/-- `requestPath.replace(/^\//, '')`: drop one leading slash if present. -/
def stripLeadingSlash (s : String) : String :=
  match s.data with
  | '/' :: rest => String.mk rest
  | _ => s

/-- Embedding of the Retriever `handler` (`retrieve.js`); the
`imageFileName` it fetches is the request path stripped of its leading
slash. -/
def retrieveHandler (store : String → StorageGetResult) (requestPath : String) :
    RetrieveResponse :=
  match getImage store (stripLeadingSlash requestPath) with
  | .ok base64Body =>
      { statusCode := 200, contentType := some "image/jpg", location := none,
        body := some base64Body, isBase64Encoded := true }
  | .error _ =>
      { statusCode := 303, contentType := none, location := some fallbackGifUrl,
        body := none, isBase64Encoded := false }

/-! ## Generator: model invocation

The three Generator variants share the same model-call shape. The Bedrock
`send` outcome is a stub: either the call throws (transport/service error)
or it returns a response whose decoded JSON body has an `images` array and
an optional `error` field. Invocation randomness (`Math.random`) is
modelled by an explicit `entropy : Nat` drawn by the runtime for the
invocation; `Math.floor(Math.random() * IMAGE_GENERATION_MAX_SEED)` is
modelled as `entropy % IMAGE_GENERATION_MAX_SEED`. -/

def IMAGE_GENERATION_HEIGHT_WIDTH_IN_PX : Nat := 320
def IMAGE_GENERATION_MAX_SEED : Nat := 1048576

/-- Stub of `bedrockClient.send(command)` plus JSON-decoding its body. -/
inductive ModelSend where
  | throws (msg : String)
  | responds (images : List String) (error : Option String)
deriving DecidableEq, Repr

/-- The model payload (`payload` object in `invokeModel`). `text` is the
prompt as parsed from the request body, `none` when the field was absent
(JavaScript `undefined`); `cfgScale` is the integral double 8.0, held as a
natural number. -/
structure Payload where
  taskType : String
  text : Option String
  numberOfImages : Nat
  height : Nat
  width : Nat
  quality : String
  cfgScale : Nat
  seed : Nat
deriving DecidableEq, Repr

/-- Payload built by the inline Generator variant (`part_000`): fixed
512x512, `seed: 42`. It does not sample `Math.random`, so the invocation
entropy is unused. -/
def inlinePayload (prompt : Option String) (_entropy : Nat) : Payload :=
  { taskType := "TEXT_IMAGE", text := prompt, numberOfImages := 1,
    height := 512, width := 512, quality := "standard", cfgScale := 8,
    seed := 42 }

/-- Payload built by both storing Generator variants (`part_001`): fixed
320x320, `seed = Math.floor(Math.random() * IMAGE_GENERATION_MAX_SEED)`. -/
def storingPayload (prompt : Option String) (entropy : Nat) : Payload :=
  { taskType := "TEXT_IMAGE", text := prompt, numberOfImages := 1,
    height := IMAGE_GENERATION_HEIGHT_WIDTH_IN_PX,
    width := IMAGE_GENERATION_HEIGHT_WIDTH_IN_PX, quality := "standard",
    cfgScale := 8, seed := entropy % IMAGE_GENERATION_MAX_SEED }

/-- Shared body of `invokeModel` after the send: read `images[0]` (a missing
or empty array throws a TypeError), base64-decode it (`fromBase64` throws on
malformed input), then throw if the response carries an `error` field. On
success it yields both the base64 string (returned by the `part_000`
variant) and the decoded bytes (returned by the `part_001` variants). -/
def invokeModelCore (send : ModelSend) : Except String (String × List Nat) :=
  match send with
  | .throws m => .error m
  | .responds images err =>
    match images.head? with
    | none => .error "TypeError: images[0] is undefined"
    | some base64Image =>
      match fromBase64 base64Image with
      | none => .error "InvalidBase64"
      | some imageBuffer =>
        match err with
        | some f => .error ("Image generation error. Error is: " ++ f)
        | none => .ok (base64Image, imageBuffer)

/-- Embedding of `invokeModel` from `part_000` (returns the base64 string),
paired with the payload it sent. -/
def invokeModel_inline (send : ModelSend) (prompt : Option String)
    (entropy : Nat) : Except String String × Payload :=
  ((invokeModelCore send).map Prod.fst, inlinePayload prompt entropy)

/-- Embedding of `invokeModel` from `part_001` (both copies; returns the
decoded image bytes), paired with the payload it sent. -/
def invokeModel_storing (send : ModelSend) (prompt : Option String)
    (entropy : Nat) : Except String (List Nat) × Payload :=
  ((invokeModelCore send).map Prod.snd, storingPayload prompt entropy)

/-! ## Generator: storing the image

An S3 `PutObjectCommand` issued by `saveImageToBucket` is recorded as a
`PutCall`; a `getSignedUrl` call as a `SignCall`. The put outcome is a stub
(`Except`): `s3Client.send(putCommand)` either succeeds or throws. -/

/-- One S3 put, as issued (bucket, key, body, content type). -/
structure PutCall where
  bucket : String
  key : String
  body : List Nat
  contentType : String
deriving DecidableEq, Repr

/-- One `getSignedUrl` call, as issued (bucket, key, `expiresIn` seconds). -/
structure SignCall where
  bucket : String
  key : String
  expiresIn : Nat
deriving DecidableEq, Repr

/-- Decidable equality for `Except` results, so outcomes can be compared by
`decide` in concrete evaluations. -/
instance instDecEqExcept {ε α : Type} [DecidableEq ε] [DecidableEq α] :
    DecidableEq (Except ε α) := fun a b =>
  match a, b with
  | .error e, .error f =>
      if h : e = f then .isTrue (by rw [h])
      else .isFalse (by intro hc; cases hc; exact h rfl)
  | .ok x, .ok y =>
      if h : x = y then .isTrue (by rw [h])
      else .isFalse (by intro hc; cases hc; exact h rfl)
  | .error _, .ok _ => .isFalse (by intro hc; cases hc)
  | .ok _, .error _ => .isFalse (by intro hc; cases hc)

/-- Outcome of `saveImageToBucket`: its return value (or thrown error) plus
the storage calls it issued. -/
structure SaveResult where
  result : Except String String
  puts : List PutCall
  signs : List SignCall
deriving DecidableEq, Repr

def PRESIGNED_URL_EXPIRES_IN_DAYS : Nat := 7

/-- `PRESIGNED_URL_EXPIRES_IN_DAYS * 24 * 60 * 60`, as computed in
`saveImageToBucket` of the presigned variant. -/
def expiresInSeconds : Nat := PRESIGNED_URL_EXPIRES_IN_DAYS * 24 * 60 * 60

/-- Embedding of `saveImageToBucket` from the presigned variant
(`part_001`, first handler): put the image under `<requestId>.png`, then
mint a presigned get URL for that key. If the put throws, the catch logs
and rethrows, so no sign call is made. `sign` stubs `getSignedUrl`. -/
def saveImageToBucket_presigned (putRes : Except String Unit)
    (sign : String → Nat → String) (imageBuffer : List Nat)
    (requestId : String) : SaveResult :=
  let imageFileName := requestId ++ ".png"
  let put : PutCall := ⟨BUCKET_NAME, imageFileName, imageBuffer, "image/png"⟩
  match putRes with
  | .error e => { result := .error e, puts := [put], signs := [] }
  | .ok _ =>
      { result := .ok (sign imageFileName expiresInSeconds), puts := [put],
        signs := [⟨BUCKET_NAME, imageFileName, expiresInSeconds⟩] }

/-- Embedding of `saveImageToBucket` from the retrieval-URL variant
(`part_001`, second handler): put the image under `<requestId>.png` and
return the file name; rethrows a put failure. -/
def saveImageToBucket_named (putRes : Except String Unit)
    (imageBuffer : List Nat) (requestId : String) : SaveResult :=
  let imageFileName := requestId ++ ".png"
  let put : PutCall := ⟨BUCKET_NAME, imageFileName, imageBuffer, "image/png"⟩
  match putRes with
  | .error e => { result := .error e, puts := [put], signs := [] }
  | .ok _ => { result := .ok imageFileName, puts := [put], signs := [] }

/-! ## Generator: request parsing and the handlers

All three Generator handlers start with
`const body = JSON.parse(event.body); ... body.creator.company.id;`
OUTSIDE the try/catch. `BodyParse.throws` models the case where this
prologue throws (missing or malformed JSON body makes `JSON.parse` throw;
a missing `creator` or `creator.company` object makes the property lookup
throw a TypeError); such an exception escapes the handler.
`BodyParse.fields` carries the parsed prompt/command and company id, `none`
when the respective field is absent (JavaScript `undefined`). -/

inductive BodyParse where
  | throws (msg : String)
  | fields (prompt : Option String) (companyId : Option String)
deriving DecidableEq, Repr

/-- JavaScript loose equality `==` restricted to the values that occur here:
two strings compare by content, `undefined == undefined` is true, and a
string never equals `undefined`. -/
def jsLooseEq : Option String → Option String → Bool
  | none, none => true
  | some a, some b => a == b
  | _, _ => false

/-- JavaScript template-literal interpolation of a possibly-undefined
string value. -/
def jsTemplate : Option String → String
  | none => "undefined"
  | some s => s

/-- A Generator response: the handlers only ever set `statusCode` and
`body`. -/
structure GenResponse where
  statusCode : Nat
  body : String
deriving DecidableEq, Repr

/-- Outcome of one Generator invocation: the returned response (or the
exception that escaped the handler) plus the model payloads sent and the
storage calls issued. -/
structure GenOutcome where
  result : Except String GenResponse
  modelCalls : List Payload
  puts : List PutCall
  signs : List SignCall
deriving DecidableEq, Repr

/-- Embedding of the `part_000` handler (inline base64 return). -/
def handler_inline (envCompanyId : Option String) (body : BodyParse)
    (send : ModelSend) (entropy : Nat) : GenOutcome :=
  match body with
  | .throws m =>
      { result := .error m, modelCalls := [], puts := [], signs := [] }
  | .fields prompt companyId =>
    if jsLooseEq companyId envCompanyId then
      match invokeModel_inline send prompt entropy with
      | (.ok base64Image, payload) =>
          { result := .ok ⟨200, base64Image⟩, modelCalls := [payload],
            puts := [], signs := [] }
      | (.error _, payload) =>
          { result := .ok ⟨200, fallbackBody⟩, modelCalls := [payload],
            puts := [], signs := [] }
    else
      { result := .ok ⟨403, "Access Denied"⟩, modelCalls := [], puts := [],
        signs := [] }

/-- Embedding of the first `part_001` handler (stores the image, returns an
HTML img tag around a presigned URL). -/
def handler_presigned (envCompanyId : Option String) (body : BodyParse)
    (send : ModelSend) (entropy : Nat) (putRes : Except String Unit)
    (sign : String → Nat → String) (requestId : String) : GenOutcome :=
  match body with
  | .throws m =>
      { result := .error m, modelCalls := [], puts := [], signs := [] }
  | .fields command companyId =>
    if jsLooseEq companyId envCompanyId then
      match invokeModel_storing send command entropy with
      | (.error _, payload) =>
          { result := .ok ⟨200, fallbackBody⟩, modelCalls := [payload],
            puts := [], signs := [] }
      | (.ok imageBuffer, payload) =>
        let save := saveImageToBucket_presigned putRes sign imageBuffer requestId
        match save.result with
        | .error _ =>
            { result := .ok ⟨200, fallbackBody⟩, modelCalls := [payload],
              puts := save.puts, signs := save.signs }
        | .ok url =>
            let html := "<img src=\"" ++ url ++ "\" alt=\"" ++ jsTemplate command
              ++ "\" width=\"" ++ toString IMAGE_GENERATION_HEIGHT_WIDTH_IN_PX
              ++ "\" height=\"" ++ toString IMAGE_GENERATION_HEIGHT_WIDTH_IN_PX
              ++ "\"/>"
            { result := .ok ⟨200, html⟩, modelCalls := [payload],
              puts := save.puts, signs := save.signs }
    else
      { result := .ok ⟨403, "Access Denied"⟩, modelCalls := [], puts := [],
        signs := [] }

/-- Embedding of the second `part_001` handler (stores the image, returns
`<retrieveApi>/<imageFileName>`). -/
def handler_retrieveUrl (envCompanyId : Option String)
    (retrieveApi : Option String) (body : BodyParse) (send : ModelSend)
    (entropy : Nat) (putRes : Except String Unit) (requestId : String) :
    GenOutcome :=
  match body with
  | .throws m =>
      { result := .error m, modelCalls := [], puts := [], signs := [] }
  | .fields command companyId =>
    if jsLooseEq companyId envCompanyId then
      match invokeModel_storing send command entropy with
      | (.error _, payload) =>
          { result := .ok ⟨200, fallbackBody⟩, modelCalls := [payload],
            puts := [], signs := [] }
      | (.ok imageBuffer, payload) =>
        let save := saveImageToBucket_named putRes imageBuffer requestId
        match save.result with
        | .error _ =>
            { result := .ok ⟨200, fallbackBody⟩, modelCalls := [payload],
              puts := save.puts, signs := save.signs }
        | .ok imageFileName =>
            let responseUrl := jsTemplate retrieveApi ++ "/" ++ imageFileName
            { result := .ok ⟨200, responseUrl⟩, modelCalls := [payload],
              puts := save.puts, signs := save.signs }
    else
      { result := .ok ⟨403, "Access Denied"⟩, modelCalls := [], puts := [],
        signs := [] }

/-- "hay contains needle as a substring". -/
def hasSubstring (hay needle : String) : Prop :=
  ∃ pre post : String, hay = pre ++ needle ++ post

/-! ## Claim theorems -/

/-- C1: whenever the request body carries a company identifier that does not
match the configured expected value, every Generator variant returns
statusCode 403 with body exactly "Access Denied", issuing zero model calls
and zero storage calls. -/
theorem c1_access_denied (envCompanyId companyId prompt retrieveApi : Option String)
    (send : ModelSend) (entropy : Nat) (putRes putRes2 : Except String Unit)
    (sign : String → Nat → String) (requestId requestId2 : String)
    (h : jsLooseEq companyId envCompanyId = false) :
    handler_inline envCompanyId (.fields prompt companyId) send entropy
      = ⟨.ok ⟨403, "Access Denied"⟩, [], [], []⟩ ∧
    handler_presigned envCompanyId (.fields prompt companyId) send entropy
        putRes sign requestId
      = ⟨.ok ⟨403, "Access Denied"⟩, [], [], []⟩ ∧
    handler_retrieveUrl envCompanyId retrieveApi (.fields prompt companyId)
        send entropy putRes2 requestId2
      = ⟨.ok ⟨403, "Access Denied"⟩, [], [], []⟩ := by
  refine ⟨?_, ?_, ?_⟩ <;>
    simp [handler_inline, handler_presigned, handler_retrieveUrl, h]

/-- Witness for C1 at a concrete mismatching company identifier. -/
theorem c1_access_denied_witness :
    jsLooseEq (some "intruder") (some "CASE") = false ∧
    (handler_inline (some "CASE") (.fields (some "a corgi") (some "intruder"))
        (.responds [] none) 0
      = ⟨.ok ⟨403, "Access Denied"⟩, [], [], []⟩ ∧
    handler_presigned (some "CASE") (.fields (some "a corgi") (some "intruder"))
        (.responds [] none) 0 (.ok ()) (fun _ _ => "https://signed") "req-1"
      = ⟨.ok ⟨403, "Access Denied"⟩, [], [], []⟩ ∧
    handler_retrieveUrl (some "CASE") (some "https://retrieve")
        (.fields (some "a corgi") (some "intruder")) (.responds [] none) 0
        (.ok ()) "req-2"
      = ⟨.ok ⟨403, "Access Denied"⟩, [], [], []⟩) :=
  ⟨by decide,
   c1_access_denied (some "CASE") (some "intruder") (some "a corgi")
     (some "https://retrieve") (.responds [] none) 0 (.ok ()) (.ok ())
     (fun _ _ => "https://signed") "req-1" "req-2" (by decide)⟩

/-- C3 counterexample: when the request body is malformed, the parse
prologue throws outside the try/catch and the handler result is a
propagated error, not the statusCode-200 fallback response the claim
promises. -/
theorem c3_counterexample :
    (handler_inline (some "CASE")
        (.throws "SyntaxError: Unexpected token in JSON")
        (.responds [] none) 0).result
      = .error "SyntaxError: Unexpected token in JSON" ∧
    (Except.error "SyntaxError: Unexpected token in JSON"
        : Except String GenResponse) ≠ .ok ⟨200, fallbackBody⟩ := by
  exact ⟨rfl, by simp⟩

/-- C3 amended: when the body-parse prologue throws (missing or malformed
JSON body, or missing `creator`/`creator.company` objects), every Generator
variant propagates that error to the transport layer — with zero model and
storage calls — instead of returning the 200 fallback; the fallback covers
only failures after the authorization check. -/
theorem c3_amended_parse_error_propagates (envCompanyId retrieveApi : Option String)
    (m : String) (send : ModelSend) (entropy : Nat)
    (putRes putRes2 : Except String Unit) (sign : String → Nat → String)
    (requestId requestId2 : String) :
    handler_inline envCompanyId (.throws m) send entropy
      = ⟨.error m, [], [], []⟩ ∧
    handler_presigned envCompanyId (.throws m) send entropy putRes sign requestId
      = ⟨.error m, [], [], []⟩ ∧
    handler_retrieveUrl envCompanyId retrieveApi (.throws m) send entropy
        putRes2 requestId2
      = ⟨.error m, [], [], []⟩ :=
  ⟨rfl, rfl, rfl⟩

/-- C6: both storing variants put the image under the key
`<requestId>.png` — a deterministic function of the request identifier —
and distinct request identifiers always give distinct keys. -/
theorem c6_stored_key (r1 r2 : String) (h : r1 ≠ r2)
    (putRes putRes2 : Except String Unit) (sign : String → Nat → String)
    (buf buf2 : List Nat) :
    (saveImageToBucket_presigned putRes sign buf r1).puts.map PutCall.key
      = [r1 ++ ".png"] ∧
    (saveImageToBucket_named putRes2 buf2 r1).puts.map PutCall.key
      = [r1 ++ ".png"] ∧
    r1 ++ ".png" ≠ r2 ++ ".png" := by
  refine ⟨?_, ?_, ?_⟩
  · cases putRes <;> rfl
  · cases putRes2 <;> rfl
  · intro heq
    apply h
    have hd : r1.data ++ ".png".data = r2.data ++ ".png".data := by
      have := congrArg String.data heq
      simpa using this
    exact String.ext (List.append_left_injective _ hd)

/-- Witness for C6 at two concrete distinct request identifiers. -/
theorem c6_stored_key_witness :
    "req-a" ≠ "req-b" ∧
    ((saveImageToBucket_presigned (.ok ()) (fun _ _ => "u") [7] "req-a").puts.map
        PutCall.key = ["req-a" ++ ".png"] ∧
    (saveImageToBucket_named (.ok ()) [8] "req-a").puts.map PutCall.key
      = ["req-a" ++ ".png"] ∧
    "req-a" ++ ".png" ≠ "req-b" ++ ".png") :=
  ⟨by decide,
   c6_stored_key "req-a" "req-b" (by decide) (.ok ()) (.ok ())
     (fun _ _ => "u") [7] [8]⟩

/-- C7 counterexample: the inline Generator variant (`part_000`) does not
draw its seed at random — the payload is the same for every invocation
entropy, with seed fixed at 42, so the payload is a deterministic function
of the prompt, contradicting the claim for that variant. -/
theorem c7_counterexample :
    (inlinePayload (some "a corgi") 0).seed = 42 ∧
    (inlinePayload (some "a corgi") 1).seed = 42 ∧
    (∀ e1 e2 : Nat,
      inlinePayload (some "a corgi") e1 = inlinePayload (some "a corgi") e2) ∧
    (invokeModel_inline (.responds [] none) (some "a corgi") 0).2
      = (invokeModel_inline (.responds [] none) (some "a corgi") 1).2 :=
  ⟨rfl, rfl, fun _ _ => rfl, rfl⟩

/-- C7 amended: only the storing Generator variants (`part_001`) draw the
seed from the invocation randomness; their seed always lies in
`[0, IMAGE_GENERATION_MAX_SEED)` and the payload is not a deterministic
function of the prompt (different entropy can give different payloads),
while the inline variant (`part_000`) always uses seed 42. -/
theorem c7_amended_seed (prompt : Option String) (entropy : Nat)
    (send : ModelSend) :
    (invokeModel_storing send prompt entropy).2 = storingPayload prompt entropy ∧
    (storingPayload prompt entropy).seed < IMAGE_GENERATION_MAX_SEED ∧
    storingPayload prompt 0 ≠ storingPayload prompt 1 ∧
    (inlinePayload prompt entropy).seed = 42 := by
  refine ⟨rfl, ?_, ?_, rfl⟩
  · exact Nat.mod_lt _ (by decide)
  · intro hpay
    have hseed := congrArg Payload.seed hpay
    simp [storingPayload, IMAGE_GENERATION_MAX_SEED] at hseed

/-- C8: the presigned URL expiry is the fixed constant
7 * 24 * 60 * 60 = 604800 seconds, and every sign call issued by
`saveImageToBucket` uses exactly that expiry. -/
theorem c8_presigned_expiry (sign : String → Nat → String) (buf : List Nat)
    (requestId : String) :
    PRESIGNED_URL_EXPIRES_IN_DAYS = 7 ∧
    expiresInSeconds = 7 * 24 * 60 * 60 ∧
    expiresInSeconds = 604800 ∧
    (saveImageToBucket_presigned (.ok ()) sign buf requestId).signs
      = [⟨BUCKET_NAME, requestId ++ ".png", 604800⟩] :=
  ⟨rfl, rfl, rfl, rfl⟩

/-- C10: in the presigned variant, if the put throws then
`saveImageToBucket` propagates the error, issues no sign call, and the
handler's caller-visible body is the fallback message, not a URL. -/
theorem c10_no_url_on_put_failure (envCompanyId companyId command : Option String)
    (send : ModelSend) (entropy : Nat) (e : String)
    (sign : String → Nat → String) (requestId : String)
    (s : String) (buf : List Nat)
    (hauth : jsLooseEq companyId envCompanyId = true)
    (hmodel : invokeModelCore send = .ok (s, buf)) :
    (saveImageToBucket_presigned (.error e) sign buf requestId).result
      = .error e ∧
    (saveImageToBucket_presigned (.error e) sign buf requestId).signs = [] ∧
    handler_presigned envCompanyId (.fields command companyId) send entropy
        (.error e) sign requestId
      = ⟨.ok ⟨200, fallbackBody⟩, [storingPayload command entropy],
         [⟨BUCKET_NAME, requestId ++ ".png", buf, "image/png"⟩], []⟩ := by
  refine ⟨rfl, rfl, ?_⟩
  simp [handler_presigned, hauth, invokeModel_storing, hmodel,
    saveImageToBucket_presigned, Except.map]

/-- Witness for C10 at a concrete authorized invocation whose put throws. -/
theorem c10_no_url_on_put_failure_witness :
    jsLooseEq (some "CASE") (some "CASE") = true ∧
    invokeModelCore (.responds ["AA=="] none) = .ok ("AA==", [0]) ∧
    ((saveImageToBucket_presigned (.error "S3ServiceException")
        (fun _ _ => "https://signed") [0] "req-1").result
      = .error "S3ServiceException" ∧
    (saveImageToBucket_presigned (.error "S3ServiceException")
        (fun _ _ => "https://signed") [0] "req-1").signs = [] ∧
    handler_presigned (some "CASE") (.fields (some "a corgi") (some "CASE"))
        (.responds ["AA=="] none) 5 (.error "S3ServiceException")
        (fun _ _ => "https://signed") "req-1"
      = ⟨.ok ⟨200, fallbackBody⟩, [storingPayload (some "a corgi") 5],
         [⟨BUCKET_NAME, "req-1" ++ ".png", [0], "image/png"⟩], []⟩) :=
  ⟨by decide, by decide,
   c10_no_url_on_put_failure (some "CASE") (some "CASE") (some "a corgi")
     (.responds ["AA=="] none) 5 "S3ServiceException"
     (fun _ _ => "https://signed") "req-1" "AA==" [0] (by decide) (by decide)⟩

/-- Helper for C2: whenever the Bedrock send throws or the response carries
an `error` field, `invokeModel` propagates an error. -/
theorem invokeModelCore_fails (send : ModelSend)
    (hfail : (∃ m, send = .throws m) ∨
      ∃ imgs f, send = .responds imgs (some f)) :
    ∃ e, invokeModelCore send = .error e := by
  rcases hfail with ⟨m, rfl⟩ | ⟨imgs, f, rfl⟩
  · exact ⟨m, rfl⟩
  · simp only [invokeModelCore]
    cases himgs : imgs.head? with
    | none => exact ⟨"TypeError: images[0] is undefined", by simp [himgs]⟩
    | some img =>
      cases hdec : fromBase64 img with
      | none => exact ⟨"InvalidBase64", by simp [himgs, hdec]⟩
      | some buf =>
          exact ⟨"Image generation error. Error is: " ++ f,
            by simp [himgs, hdec]⟩

/-- C2: for an authorized invocation, a model transport error and a
model-reported error indicator both make the model call propagate an error
and make every Generator variant return statusCode 200 with the fixed
fallback body, which contains the substring "Something went wrong". -/
theorem c2_model_failure (envCompanyId companyId prompt retrieveApi : Option String)
    (send : ModelSend) (entropy : Nat) (putRes putRes2 : Except String Unit)
    (sign : String → Nat → String) (requestId requestId2 : String)
    (hauth : jsLooseEq companyId envCompanyId = true)
    (hfail : (∃ m, send = .throws m) ∨
      ∃ imgs f, send = .responds imgs (some f)) :
    (∃ e, invokeModelCore send = .error e) ∧
    (handler_inline envCompanyId (.fields prompt companyId) send entropy).result
      = .ok ⟨200, fallbackBody⟩ ∧
    (handler_presigned envCompanyId (.fields prompt companyId) send entropy
        putRes sign requestId).result
      = .ok ⟨200, fallbackBody⟩ ∧
    (handler_retrieveUrl envCompanyId retrieveApi (.fields prompt companyId)
        send entropy putRes2 requestId2).result
      = .ok ⟨200, fallbackBody⟩ ∧
    hasSubstring fallbackBody "Something went wrong" := by
  obtain ⟨e, he⟩ := invokeModelCore_fails send hfail
  refine ⟨⟨e, he⟩, ?_, ?_, ?_, ?_⟩
  · simp [handler_inline, hauth, invokeModel_inline, he, Except.map]
  · simp [handler_presigned, hauth, invokeModel_storing, he, Except.map]
  · simp [handler_retrieveUrl, hauth, invokeModel_storing, he, Except.map]
  · exact ⟨"", " :( https://media.giphy.com/media/l41JNsXAvFvoHvWJW/giphy.gif",
      by decide⟩

/-- Witness for C2 at a concrete authorized invocation whose model send
throws. -/
theorem c2_model_failure_witness :
    jsLooseEq (some "CASE") (some "CASE") = true ∧
    ((∃ e, invokeModelCore (.throws "ServiceUnavailableException") = .error e) ∧
    (handler_inline (some "CASE") (.fields (some "a corgi") (some "CASE"))
        (.throws "ServiceUnavailableException") 3).result
      = .ok ⟨200, fallbackBody⟩ ∧
    (handler_presigned (some "CASE") (.fields (some "a corgi") (some "CASE"))
        (.throws "ServiceUnavailableException") 3 (.ok ())
        (fun _ _ => "https://signed") "req-1").result
      = .ok ⟨200, fallbackBody⟩ ∧
    (handler_retrieveUrl (some "CASE") (some "https://retrieve")
        (.fields (some "a corgi") (some "CASE"))
        (.throws "ServiceUnavailableException") 3 (.ok ()) "req-2").result
      = .ok ⟨200, fallbackBody⟩ ∧
    hasSubstring fallbackBody "Something went wrong") :=
  ⟨by decide,
   c2_model_failure (some "CASE") (some "CASE") (some "a corgi")
     (some "https://retrieve") (.throws "ServiceUnavailableException") 3
     (.ok ()) (.ok ()) (fun _ _ => "https://signed") "req-1" "req-2"
     (by decide) (Or.inl ⟨"ServiceUnavailableException", rfl⟩)⟩

/-- C4: whenever the storage fetch fails — `NoSuchKey` or any other
storage-layer error — the Retriever returns the one fixed response:
statusCode 303, Location header the static fallback GIF URL, no body. -/
theorem c4_retrieve_failure (store : String → StorageGetResult)
    (requestPath : String)
    (hfail : store (stripLeadingSlash requestPath) = .noSuchKey ∨
      ∃ n m, store (stripLeadingSlash requestPath) = .otherError n m) :
    retrieveHandler store requestPath
      = ⟨303, none, some fallbackGifUrl, none, false⟩ := by
  unfold retrieveHandler getImage
  rcases hfail with h | ⟨n, m, h⟩ <;> simp [h]

/-- Witness for C4, one concrete input per failure cause. -/
theorem c4_retrieve_failure_witness :
    ((fun _ => StorageGetResult.noSuchKey : String → StorageGetResult)
        (stripLeadingSlash "/missing.png") = .noSuchKey ∨
      ∃ n m, (fun _ => StorageGetResult.noSuchKey : String → StorageGetResult)
        (stripLeadingSlash "/missing.png") = .otherError n m) ∧
    retrieveHandler (fun _ => StorageGetResult.noSuchKey) "/missing.png"
      = ⟨303, none, some fallbackGifUrl, none, false⟩ ∧
    retrieveHandler (fun _ => StorageGetResult.otherError "AccessDenied" "no")
        "/missing.png"
      = ⟨303, none, some fallbackGifUrl, none, false⟩ :=
  ⟨Or.inl rfl,
   c4_retrieve_failure (fun _ => StorageGetResult.noSuchKey) "/missing.png"
     (Or.inl rfl),
   c4_retrieve_failure (fun _ => StorageGetResult.otherError "AccessDenied" "no")
     "/missing.png" (Or.inr ⟨"AccessDenied", "no", rfl⟩)⟩

/-- C5: for bytes B stored under key K, invoking the Retriever with a path
naming K gives statusCode 200, isBase64Encoded true, content-type
"image/jpg", and a body that base64-decodes back to exactly B. -/
theorem c5_retrieve_roundtrip (store : String → StorageGetResult)
    (requestPath K : String) (B : List Nat)
    (hkey : stripLeadingSlash requestPath = K)
    (hstore : store K = .found B)
    (hbytes : ∀ b ∈ B, b < 256) :
    retrieveHandler store requestPath
      = ⟨200, some "image/jpg", none, some (toBase64 B), true⟩ ∧
    (retrieveHandler store requestPath).body.bind fromBase64 = some B := by
  have h1 : retrieveHandler store requestPath
      = ⟨200, some "image/jpg", none, some (toBase64 B), true⟩ := by
    unfold retrieveHandler getImage
    rw [hkey, hstore]
  refine ⟨h1, ?_⟩
  rw [h1]
  simpa using fromBase64_toBase64 B hbytes

/-- The storage stub used by the C5 witness: bytes [0, 255, 10] live under
key "abc.png". -/
def demoStoreC5 : String → StorageGetResult :=
  fun k => if k = "abc.png" then .found [0, 255, 10] else .noSuchKey

/-- Witness for C5 at concrete stored bytes [0, 255, 10] under key
"abc.png". -/
theorem c5_retrieve_roundtrip_witness :
    demoStoreC5 "abc.png" = .found [0, 255, 10] ∧
    (retrieveHandler demoStoreC5 "/abc.png"
      = ⟨200, some "image/jpg", none, some (toBase64 [0, 255, 10]), true⟩ ∧
    (retrieveHandler demoStoreC5 "/abc.png").body.bind fromBase64
      = some [0, 255, 10]) :=
  ⟨by decide,
   c5_retrieve_roundtrip demoStoreC5 "/abc.png" "abc.png" [0, 255, 10]
     (by decide) (by decide) (by decide)⟩

/-- C9: the Retriever's success response always carries content type
"image/jpg" while every stored image is put with content type "image/png",
and the two differ. -/
theorem c9_content_type_mismatch (store : String → StorageGetResult)
    (requestPath : String) (B : List Nat)
    (hstore : store (stripLeadingSlash requestPath) = .found B) :
    (retrieveHandler store requestPath).contentType = some "image/jpg" ∧
    (∀ (putRes : Except String Unit) (sign : String → Nat → String)
        (buf : List Nat) (rid : String),
      (saveImageToBucket_presigned putRes sign buf rid).puts.map
          PutCall.contentType = ["image/png"]) ∧
    (∀ (putRes : Except String Unit) (buf : List Nat) (rid : String),
      (saveImageToBucket_named putRes buf rid).puts.map PutCall.contentType
        = ["image/png"]) ∧
    ("image/jpg" : String) ≠ "image/png" := by
  refine ⟨?_, ?_, ?_, by decide⟩
  · unfold retrieveHandler getImage
    rw [hstore]
  · intro putRes sign buf rid
    cases putRes <;> rfl
  · intro putRes buf rid
    cases putRes <;> rfl

/-- Witness for C9 at a concrete stored object. -/
theorem c9_content_type_mismatch_witness :
    (fun _ => StorageGetResult.found [1] : String → StorageGetResult)
        (stripLeadingSlash "/k.png") = .found [1] ∧
    ((retrieveHandler (fun _ => StorageGetResult.found [1]) "/k.png").contentType
      = some "image/jpg" ∧
    (∀ (putRes : Except String Unit) (sign : String → Nat → String)
        (buf : List Nat) (rid : String),
      (saveImageToBucket_presigned putRes sign buf rid).puts.map
          PutCall.contentType = ["image/png"]) ∧
    (∀ (putRes : Except String Unit) (buf : List Nat) (rid : String),
      (saveImageToBucket_named putRes buf rid).puts.map PutCall.contentType
        = ["image/png"]) ∧
    ("image/jpg" : String) ≠ "image/png") :=
  ⟨rfl,
   c9_content_type_mismatch (fun _ => StorageGetResult.found [1]) "/k.png" [1]
     rfl⟩

end Genbot
